import Mathlib

/-!
Verification development for the FraudLens fraud-scoring pipeline.

The definitions below are a shallow embedding of the JavaScript services:
the document-validation service, the OCR authenticity heuristic, the image
analysis service (including the perceptual-hash registry), the fraud fusion
engine and the decision engine.  JavaScript numbers are modelled as exact
rationals (`ℚ`); dates are modelled as millisecond epoch integers (`ℤ`);
`null`/`undefined` become `Option`; JavaScript truthiness of strings and
numbers is modelled explicitly.  Wall-clock reads (`new Date()`) are passed
in as an explicit `now` argument so that time dependence is visible.
-/

namespace FraudLens

/-! ## JavaScript-flavoured helpers -/

/-- Truthiness of an optional JS string: `null`/`undefined` and `""` are falsy. -/
def jsTruthy : Option String → Bool
  | none => false
  | some s => !s.isEmpty

/-- Result of a JS `a || b` chain over optional strings (first truthy value). -/
def jsOrStr (a b : Option String) : Option String := if jsTruthy a then a else b

/-- Truthiness of an optional JS number: `null`/`undefined` and `0` are falsy. -/
def qTruthy : Option ℚ → Bool
  | none => false
  | some v => v != 0

/-- Lowercase a string character by character (JS `toLowerCase`; ASCII case
mapping, which covers every string the services compare). -/
def strToLower (s : String) : String := String.mk (s.toList.map Char.toLower)

/-- Trim leading and trailing whitespace (JS `trim`). -/
def strTrim (s : String) : String :=
  String.mk (((s.toList.dropWhile Char.isWhitespace).reverse.dropWhile Char.isWhitespace).reverse)

/-- JS `String.prototype.includes`: `sub` occurs somewhere in `s`
(for a non-empty `sub`). -/
def strIncludes (s sub : String) : Bool := (s.splitOn sub).length ≥ 2

/-- Inner loop of one row update of the Levenshtein dynamic program. -/
def levRowGo (x : Char) : ℕ → List ℕ → ℕ → List Char → List ℕ
  | diag, pj :: prest, left, y :: ys =>
      let cost : ℕ := if x = y then 0 else 1
      let nj := min (pj + 1) (min (left + 1) (diag + cost))
      nj :: levRowGo x pj prest nj ys
  | _, _, _, _ => []

/-- One row update of the Levenshtein dynamic program: from the previous row
of distances compute the row after consuming character `x`. -/
def levRow (x : Char) (ys : List Char) (prevRow : List ℕ) : List ℕ :=
  match prevRow with
  | [] => []
  | p0 :: ps => (p0 + 1) :: levRowGo x p0 ps (p0 + 1) ys

/-- Levenshtein edit distance between two character lists, computed row by
row exactly as the matrix dynamic program of the source. -/
def levenshtein (xs ys : List Char) : ℕ :=
  (xs.foldl (fun row x => levRow x ys row) (List.range (ys.length + 1))).getLastD 0

/-- stringSimilarity from the validation service: empty (falsy) inputs give 0,
equal lowercased/trimmed strings give 1, otherwise `1 - distance / maxLen`. -/
def stringSimilarity (str1 str2 : String) : ℚ :=
  if str1.isEmpty || str2.isEmpty then 0
  else
    let s1 := strTrim (strToLower str1)
    let s2 := strTrim (strToLower str2)
    if s1 = s2 then 1
    else if s1.isEmpty || s2.isEmpty then 0
    else
      let d := levenshtein s1.toList s2.toList
      let maxLen := max s1.length s2.length
      1 - (d : ℚ) / (maxLen : ℚ)

/-- normalizePolicyNumber: drop whitespace, dashes, underscores and dots
(the regex class `[\s\-_.]`), then uppercase.  A missing value yields `""`. -/
def normalizePolicyNumber : Option String → String
  | none => ""
  | some p =>
      String.mk ((p.toList.filter
        (fun c => !(c.isWhitespace || c = '-' || c = '_' || c = '.'))).map Char.toUpper)

/-- Collapse every whitespace run to a single space (the regex `\s+` → `" "`). -/
def collapseSpaces (s : String) : String :=
  String.intercalate " " ((s.split Char.isWhitespace).filter (fun w => !w.isEmpty))

/-- Strip a generational suffix token at the end of the string when it sits at
a word boundary (the regex `\btok$`). -/
def stripSuffixToken (tok : String) (s : String) : String :=
  if s.endsWith tok then
    let rest := s.dropRight tok.length
    if rest.isEmpty || !(rest.back.isAlphanum || rest.back = '_') then rest else s
  else s

/-- Apply the three generational-suffix strips of normalizeName
(`\bjr\.?$`, `\bsr\.?$`, `\biii?$`; dots are already removed at this point). -/
def stripGenerational (s : String) : String :=
  let s1 := stripSuffixToken "jr" s
  let s2 := stripSuffixToken "sr" s1
  if stripSuffixToken "iii" s2 ≠ s2 then stripSuffixToken "iii" s2
  else stripSuffixToken "ii" s2

/-- normalizeName from the validation service: lowercase, trim, collapse
whitespace, drop `.` and `,`, strip Jr/Sr/II/III suffixes, trim again. -/
def normalizeName : Option String → String
  | none => ""
  | some n =>
      let s := collapseSpaces (strTrim (strToLower n))
      let s := String.mk (s.toList.filter (fun c => !(c = '.' || c = ',')))
      strTrim (stripGenerational s)

/-! ## Document validation service (data model) -/

/-- Authenticity assessment attached to an extracted document. -/
structure Authenticity where
  isAuthentic : Bool
  suspiciousElements : Option (List String)
  deriving DecidableEq

/-- Per-peril coverage limits of the structured extraction; values are the
already-parsed amounts (`parseAmount` of the raw field). -/
structure CoverageLimits where
  perOccurrence : Option ℚ
  comprehensive : Option ℚ
  collision : Option ℚ
  dwelling : Option ℚ
  personalProperty : Option ℚ
  deriving DecidableEq

/-- Structured fields of an extracted policy document.  Dates are modelled as
millisecond epoch values; `none` stands both for a missing field and for a
date string that `new Date` cannot parse (both take the same code path). -/
structure StructuredData where
  policyNumber : Option String
  policyHolder : Option String
  insuredName : Option String
  coverageLimits : CoverageLimits
  coverageAmount : Option ℚ
  effectiveDate : Option ℤ
  expirationDate : Option ℤ
  deriving DecidableEq

/-- Classified document type with its confidence. -/
structure DocumentTypeInfo where
  type : String
  confidence : ℚ
  deriving DecidableEq

/-- OCR output record consumed by validateDocumentData. -/
structure ExtractedData where
  error : Option String
  structuredData : Option StructuredData
  policyNumber : Option String
  policyHolder : Option String
  coverageAmount : Option ℚ
  authenticity : Option Authenticity
  documentType : Option DocumentTypeInfo
  overallConfidence : Option ℚ
  confidence : Option ℚ
  deriving DecidableEq

/-- The empty object used for `extractedData.structuredData || {}`. -/
def emptyStructuredData : StructuredData :=
  { policyNumber := none, policyHolder := none, insuredName := none,
    coverageLimits := { perOccurrence := none, comprehensive := none, collision := none,
                        dwelling := none, personalProperty := none },
    coverageAmount := none, effectiveDate := none, expirationDate := none }

/-- Claimant-entered form fields used by the validation service.
`claimAmount` is the already-parsed amount (`parseAmount` of the raw input). -/
structure FormData where
  policyNumber : Option String
  claimantName : Option String
  claimAmount : ℚ
  incidentDate : Option ℤ
  deriving DecidableEq

/-- Per-field comparison detail (`details.policyNumber` / `details.claimantName`). -/
structure FieldDetail where
  status : Option String
  similarity : ℚ
  isMatch : Bool
  deriving DecidableEq

/-- Coverage-comparison detail (`details.coverageAmount`). -/
structure CoverageDetail where
  extracted : ℚ
  coverageType : String
  claimAmount : ℚ
  exceeds : Bool
  status : Option String
  deriving DecidableEq

/-- All clock-independent fields of a validation result. -/
structure ValidationCore where
  isValid : Bool
  fraudScore : ℕ
  indicators : List String
  warnings : List String
  policyNumberDetail : FieldDetail
  claimantNameDetail : FieldDetail
  coverageDetail : CoverageDetail
  policyDatesStatus : Option String
  ocrStatus : Option String
  ocrError : Option String
  ocrConfidence : ℚ
  deriving DecidableEq

/-- Result of validateDocumentData: the core fields plus the wall-clock
timestamp recorded in the result object. -/
structure ValidationResult extends ValidationCore where
  timestamp : ℤ
  deriving DecidableEq

/-- The freshly initialised validation result object. -/
def initialCore : ValidationCore :=
  { isValid := true, fraudScore := 0, indicators := [], warnings := [],
    policyNumberDetail := { status := none, similarity := 0, isMatch := false },
    claimantNameDetail := { status := none, similarity := 0, isMatch := false },
    coverageDetail := { extracted := 0, coverageType := "", claimAmount := 0,
                        exceeds := false, status := none },
    policyDatesStatus := none, ocrStatus := none, ocrError := none, ocrConfidence := 0 }

/-- Early-return result when OCR failed or returned no data. -/
def failedCore (err : Option String) : ValidationCore :=
  { initialCore with
      warnings := ["Document OCR processing failed or returned no data"],
      ocrStatus := some "failed",
      ocrError := some (if jsTruthy err then err.getD "Unknown error" else "Unknown error") }

/-! ## Document validation service (the validation steps) -/

/-- Policy-number section of validateDocumentData. -/
def policyNumberStep (e : ExtractedData) (f : FormData) (s : ValidationCore) : ValidationCore :=
  let structured := e.structuredData.getD emptyStructuredData
  let extractedPolicyNumber := jsOrStr structured.policyNumber e.policyNumber
  if !(jsTruthy extractedPolicyNumber) then
    { s with fraudScore := s.fraudScore + 15,
             indicators := s.indicators ++ ["No policy number found in uploaded document"],
             policyNumberDetail := { s.policyNumberDetail with status := some "not_found" } }
  else
    let normalizedExtracted := normalizePolicyNumber extractedPolicyNumber
    let normalizedSubmitted := normalizePolicyNumber f.policyNumber
    if normalizedExtracted = normalizedSubmitted then
      { s with policyNumberDetail := { status := some "match", similarity := 1, isMatch := true } }
    else
      let similarity := stringSimilarity normalizedExtracted normalizedSubmitted
      if similarity ≥ 0.9 then
        let pct : ℤ := round (similarity * 100)
        { s with policyNumberDetail :=
                   { status := some "probable_match", similarity := similarity, isMatch := true },
                 warnings := s.warnings ++
                   [s!"Policy number close match ({pct}% similar) - possible OCR error"] }
      else
        let ep := extractedPolicyNumber.getD ""
        let sp := f.policyNumber.getD ""
        { s with fraudScore := s.fraudScore + 30,
                 indicators := s.indicators ++
                   [s!"Policy number mismatch: document shows \"{ep}\", form submitted \"{sp}\""],
                 policyNumberDetail :=
                   { status := some "mismatch", similarity := similarity, isMatch := false },
                 isValid := false }

/-- Claimant-name section of validateDocumentData. -/
def claimantNameStep (e : ExtractedData) (f : FormData) (s : ValidationCore) : ValidationCore :=
  let structured := e.structuredData.getD emptyStructuredData
  let extractedName := jsOrStr (jsOrStr structured.policyHolder structured.insuredName) e.policyHolder
  if !(jsTruthy extractedName) then
    { s with warnings := s.warnings ++ ["Could not extract policy holder name from document"],
             claimantNameDetail := { s.claimantNameDetail with status := some "not_found" } }
  else
    let similarity := stringSimilarity (normalizeName extractedName) (normalizeName f.claimantName)
    if similarity ≥ 0.95 then
      { s with claimantNameDetail :=
                 { status := some "match", similarity := similarity, isMatch := true } }
    else if similarity ≥ 0.7 then
      let pct : ℤ := round (similarity * 100)
      let en := extractedName.getD ""
      let sn := f.claimantName.getD ""
      { s with claimantNameDetail :=
                 { status := some "probable_match", similarity := similarity, isMatch := true },
               warnings := s.warnings ++ [s!"Name similarity {pct}%: \"{en}\" vs \"{sn}\""] }
    else
      let en := extractedName.getD ""
      let sn := f.claimantName.getD ""
      { s with fraudScore := s.fraudScore + 20,
               indicators := s.indicators ++
                 [s!"Name mismatch: document shows \"{en}\", claim filed by \"{sn}\""],
               claimantNameDetail :=
                 { status := some "mismatch", similarity := similarity, isMatch := false },
               isValid := false }

/-- The per-peril coverage selection chain (each raw field is tested for JS
truthiness, so a present-but-zero limit is skipped). -/
def coverageSelect (l : CoverageLimits) : ℚ × String :=
  if qTruthy l.perOccurrence then (l.perOccurrence.getD 0, "per occurrence")
  else if qTruthy l.comprehensive then (l.comprehensive.getD 0, "comprehensive")
  else if qTruthy l.collision then (l.collision.getD 0, "collision")
  else if qTruthy l.dwelling then (l.dwelling.getD 0, "dwelling")
  else if qTruthy l.personalProperty then (l.personalProperty.getD 0, "personal property")
  else (0, "")

/-- Maximum coverage figure for a document: the peril-specific chain, with a
fallback to the simpler `coverageAmount` field when the chain found nothing. -/
def coverageMaxFor (e : ExtractedData) : ℚ × String :=
  let structured := e.structuredData.getD emptyStructuredData
  let sel := coverageSelect structured.coverageLimits
  if sel.1 = 0 ∧ (qTruthy structured.coverageAmount || qTruthy e.coverageAmount) then
    (if qTruthy structured.coverageAmount then structured.coverageAmount.getD 0
     else e.coverageAmount.getD 0, "total")
  else sel

/-- Coverage-amount section of validateDocumentData. -/
def coverageStep (e : ExtractedData) (f : FormData) (s : ValidationCore) : ValidationCore :=
  let sel := coverageMaxFor e
  let maxCoverage := sel.1
  let coverageType := sel.2
  let claimAmount := f.claimAmount
  let det : CoverageDetail :=
    { extracted := maxCoverage, coverageType := coverageType, claimAmount := claimAmount,
      exceeds := false, status := none }
  if maxCoverage > 0 then
    if claimAmount > maxCoverage then
      let ca := claimAmount
      let mc := maxCoverage
      { s with fraudScore := s.fraudScore + 25,
               indicators := s.indicators ++
                 [s!"Claim amount (${ca}) exceeds {coverageType} coverage limit (${mc})"],
               coverageDetail := { det with exceeds := true, status := some "exceeds_coverage" },
               isValid := false }
    else if claimAmount > maxCoverage * 0.9 then
      let ca := claimAmount
      let mc := maxCoverage
      { s with warnings := s.warnings ++
                 [s!"Claim amount (${ca}) is very close to coverage limit (${mc})"],
               coverageDetail := { det with status := some "near_limit" } }
    else
      { s with coverageDetail := { det with status := some "within_coverage" } }
  else
    { s with coverageDetail := { det with status := some "not_found" },
             warnings := s.warnings ++ ["Could not extract coverage amount from document"] }

/-- Effective-date section of validateDocumentData. -/
def effectiveDateStep (e : ExtractedData) (f : FormData) (s : ValidationCore) : ValidationCore :=
  let structured := e.structuredData.getD emptyStructuredData
  match structured.effectiveDate, f.incidentDate with
  | some eff, some inc =>
      if inc < eff then
        let i := inc
        let d := eff
        { s with fraudScore := s.fraudScore + 20,
                 indicators := s.indicators ++
                   [s!"Incident date ({i}) is before policy effective date ({d})"],
                 policyDatesStatus := some "incident_before_effective",
                 isValid := false }
      else { s with policyDatesStatus := some "valid" }
  | _, _ => s

/-- Expiration-date section of validateDocumentData. -/
def expirationDateStep (e : ExtractedData) (f : FormData) (s : ValidationCore) : ValidationCore :=
  let structured := e.structuredData.getD emptyStructuredData
  match structured.expirationDate, f.incidentDate with
  | some expd, some inc =>
      if inc > expd then
        let i := inc
        let d := expd
        { s with fraudScore := s.fraudScore + 25,
                 indicators := s.indicators ++
                   [s!"Incident date ({i}) is after policy expiration ({d})"],
                 policyDatesStatus := some "incident_after_expiration",
                 isValid := false }
      else s
  | _, _ => s

/-- Authenticity passthrough section of validateDocumentData. -/
def authenticityStep (e : ExtractedData) (s : ValidationCore) : ValidationCore :=
  match e.authenticity with
  | none => s
  | some a =>
      if a.isAuthentic = false then
        { s with fraudScore := s.fraudScore + 35,
                 indicators := s.indicators ++
                   ["Document authenticity check failed - possible forgery"],
                 isValid := false }
      else
        match a.suspiciousElements with
        | some els =>
            if els.length > 0 then
              let joined := String.intercalate ", " els
              { s with warnings := s.warnings ++ [s!"Document has suspicious elements: {joined}"] }
            else s
        | none => s

/-- Document-type section of validateDocumentData (warning plus a small score
bump; never invalidates). -/
def documentTypeStep (e : ExtractedData) (s : ValidationCore) : ValidationCore :=
  match e.documentType with
  | none => s
  | some dt =>
      if dt.type ≠ "policy" ∧ dt.confidence > 0.7 then
        let t := dt.type
        { s with warnings := s.warnings ++
                   [s!"Uploaded document appears to be a \"{t}\" rather than a policy document"],
                 fraudScore := s.fraudScore + 10 }
      else s

/-- OCR-confidence section of validateDocumentData (warning only). -/
def ocrConfidenceStep (e : ExtractedData) (s : ValidationCore) : ValidationCore :=
  let conf := if qTruthy e.overallConfidence then e.overallConfidence.getD 0
              else if qTruthy e.confidence then e.confidence.getD 0 else 0
  let s2 := { s with ocrConfidence := conf }
  if conf < 50 then
    let c := conf
    { s2 with warnings := s2.warnings ++
                [s!"Low OCR confidence ({c}%) - extracted data may be unreliable"] }
  else s2

/-- All validation sections in source order, with the final cap of the fraud
score at 100. -/
def validateCore (e : ExtractedData) (f : FormData) : ValidationCore :=
  let s := policyNumberStep e f initialCore
  let s := claimantNameStep e f s
  let s := coverageStep e f s
  let s := effectiveDateStep e f s
  let s := expirationDateStep e f s
  let s := authenticityStep e s
  let s := documentTypeStep e s
  let s := ocrConfidenceStep e s
  { s with fraudScore := min s.fraudScore 100 }

/-- validateDocumentData: early return when OCR failed (missing record or a
truthy `error` field), otherwise run all sections.  `now` is the wall clock
recorded in the result timestamp. -/
def validateDocumentData (extractedData : Option ExtractedData) (formData : FormData)
    (now : ℤ) : ValidationResult :=
  match extractedData with
  | none => { toValidationCore := failedCore none, timestamp := now }
  | some e =>
      if jsTruthy e.error then { toValidationCore := failedCore e.error, timestamp := now }
      else { toValidationCore := validateCore e formData, timestamp := now }

/-! ## OCR service: document authenticity heuristic

checkAuthenticity aggregates six text/layout sub-checks.  The sub-checks
themselves analyse raw document text (regex scans, word counts, date
parsing); their boolean outcomes are taken as inputs here, while the
aggregation — the fixed penalty per failed check, the `> 50` verdict and
the floor at 0 — is embedded faithfully. -/

/-- Outcomes of checkSuspiciousPatterns: which of its four text scans fired. -/
structure SuspiciousFlags where
  placeholder : Bool
  sampleMarker : Bool
  repetition : Bool
  mixedFormats : Bool
  deriving DecidableEq

/-- Pattern strings reported by checkSuspiciousPatterns. -/
def suspiciousPatternsOf (f : SuspiciousFlags) : List String :=
  (if f.placeholder then ["Contains placeholder text"] else [])
  ++ (if f.sampleMarker then ["Document marked as sample/test"] else [])
  ++ (if f.repetition then ["Suspicious text repetition detected"] else [])
  ++ (if f.mixedFormats then ["Mixed currency/number formats"] else [])

/-- Accumulated penalty of checkSuspiciousPatterns (20 + 15 + 10 + 10). -/
def suspiciousPenaltyOf (f : SuspiciousFlags) : ℕ :=
  (if f.placeholder then 20 else 0) + (if f.sampleMarker then 15 else 0)
  + (if f.repetition then 10 else 0) + (if f.mixedFormats then 10 else 0)

/-- checkFontConsistency is a simplified check in the source: it always
reports `consistent: true` (also on its error path). -/
def fontConsistencyCheck : Bool := true

/-- Sub-check outcomes feeding checkAuthenticity for one document. -/
structure AuthChecksInput where
  isPdf : Bool
  formatConsistent : Bool
  dateConsistent : Bool
  dateIssues : List String
  hasTemplate : Bool
  missingMajority : Bool
  suspicious : SuspiciousFlags
  qualityPoor : Bool
  deriving DecidableEq

/-- Result of checkAuthenticity. -/
structure AuthenticityResult where
  isAuthentic : Bool
  confidence : ℤ
  flags : List String
  deriving DecidableEq

/-- The six confidence deductions of checkAuthenticity applied in source
order, starting from confidence 100 with no flags. -/
def authSteps (c : AuthChecksInput) : ℤ × List String :=
  let conf : ℤ := 100
  let flags : List String := []
  let step1 : ℤ × List String :=
    if c.isPdf ∧ fontConsistencyCheck = false then
      (conf - 20, flags ++ ["Inconsistent fonts detected - possible document manipulation"])
    else (conf, flags)
  let step2 : ℤ × List String :=
    if c.formatConsistent = false then (step1.1 - 15, step1.2 ++ ["Unusual formatting detected"])
    else step1
  let step3 : ℤ × List String :=
    if c.dateConsistent = false then
      let joined := String.intercalate ", " c.dateIssues
      (step2.1 - 25, step2.2 ++ [s!"Date inconsistencies: {joined}"])
    else step2
  let step4 : ℤ × List String :=
    if c.hasTemplate ∧ c.missingMajority then
      (step3.1 - 15, step3.2 ++ ["Missing expected fields for document type"])
    else step3
  let step5 : ℤ × List String :=
    if (suspiciousPatternsOf c.suspicious).length > 0 then
      (step4.1 - (suspiciousPenaltyOf c.suspicious : ℤ), step4.2 ++ suspiciousPatternsOf c.suspicious)
    else step4
  let step6 : ℤ × List String :=
    if c.qualityPoor then
      (step5.1 - 10, step5.2 ++ ["Poor document quality - may be a copy of a copy"])
    else step5
  step6

/-- checkAuthenticity: start from confidence 100, subtract a fixed penalty per
failed sub-check, decide `isAuthentic` by `confidence > 50`, then floor the
returned confidence at 0. -/
def checkAuthenticity (c : AuthChecksInput) : AuthenticityResult :=
  { isAuthentic := decide ((authSteps c).1 > 50),
    confidence := max 0 (authSteps c).1,
    flags := (authSteps c).2 }

/-- Total fixed penalty the claim attributes to the failed heuristics
(stated from the spec wording, for comparison with checkAuthenticity). -/
def specAuthPenaltyTotal (c : AuthChecksInput) : ℤ :=
  (if c.isPdf ∧ fontConsistencyCheck = false then 20 else 0)
  + (if c.formatConsistent = false then 15 else 0)
  + (if c.dateConsistent = false then 25 else 0)
  + (if c.hasTemplate ∧ c.missingMajority then 15 else 0)
  + (if (suspiciousPatternsOf c.suspicious).length > 0 then (suspiciousPenaltyOf c.suspicious : ℤ) else 0)
  + (if c.qualityPoor then 10 else 0)

/-! ## Image analysis service

The pixel-level measurements (EXIF parsing, sharpness, channel statistics,
the perceptual hash of the bytes) are values produced by external libraries;
they appear here as input fields.  Every rule applied on top of them —
thresholds, penalties, indicators, the hash registry and duplicate
detection — is embedded faithfully. -/

/-- EXIF extraction outcome for one image: `parseOk = false` models the
parser throwing (no EXIF container at all). -/
structure ExifInput where
  parseOk : Bool
  dateTime : Option ℤ
  gpsLatitude : Option ℚ
  gpsLongitude : Option ℚ
  cameraMake : Option String
  cameraModel : Option String
  software : Option String
  deriving DecidableEq

/-- Editing-tool names searched for in the EXIF software tag. -/
def editingSoftwareList : List String :=
  ["photoshop", "gimp", "lightroom", "snapseed", "picsart"]

/-- Result of the EXIF metadata sub-check. -/
structure ExifResult where
  dateTime : Option ℤ
  cameraMake : Option String
  gpsLatitude : Option ℚ
  fraudIndicators : List String
  fraudScore : ℕ
  deriving DecidableEq

/-- extractExifMetadata: editing-software penalty (+20), fully-stripped
metadata penalty (+15), no-EXIF-at-all penalty (+10 on the catch path). -/
def extractExifMetadata (x : ExifInput) : ExifResult :=
  if !x.parseOk then
    { dateTime := none, cameraMake := none, gpsLatitude := none,
      fraudIndicators := ["No EXIF metadata found - possibly a screenshot or web image"],
      fraudScore := 10 }
  else
    let softwareInd : List String :=
      match x.software with
      | some sw =>
          if editingSoftwareList.any (fun ed => strIncludes (strToLower sw) ed) then
            [s!"Image edited with {sw}"]
          else []
      | none => []
    let softwareScore := if softwareInd.length > 0 then 20 else 0
    let hasBasicMetadata := x.dateTime.isSome || jsTruthy x.cameraMake || qTruthy x.gpsLatitude
    let strippedInd : List String :=
      if !hasBasicMetadata then ["Image metadata stripped - possible attempt to hide origin"] else []
    let strippedScore := if !hasBasicMetadata then 15 else 0
    { dateTime := x.dateTime, cameraMake := x.cameraMake, gpsLatitude := x.gpsLatitude,
      fraudIndicators := softwareInd ++ strippedInd,
      fraudScore := softwareScore + strippedScore }

/-- Quality measurements for one image; `ok = false` models the sharp
pipeline throwing (the sub-check then contributes nothing). -/
structure QualityInput where
  ok : Bool
  width : ℕ
  height : ℕ
  format : String
  sharpness : ℚ
  contrast : ℚ
  jpegSizeRatio : Option ℚ
  deriving DecidableEq

/-- Result of the quality sub-check. -/
structure QualityResult where
  hasQuality : Bool
  fraudIndicators : List String
  fraudScore : ℕ
  deriving DecidableEq

/-- analyzeImageQuality: resolution penalties (15/5), blur (+10), low
contrast (+5) and repeated-JPEG-compression (+10) checks. -/
def analyzeImageQuality (q : QualityInput) : QualityResult :=
  if !q.ok then { hasQuality := false, fraudIndicators := [], fraudScore := 0 }
  else
    let totalPixels := q.width * q.height
    let resInd : List String × ℕ :=
      if totalPixels < 100000 then
        (["Very low resolution image - possibly screenshot of screenshot"], 15)
      else if totalPixels < 500000 then (["Low resolution image"], 5)
      else ([], 0)
    let blurInd : List String × ℕ :=
      if q.sharpness < 10 then (["Image appears blurry - may obscure details"], 10) else ([], 0)
    let contrastInd : List String × ℕ :=
      if q.contrast < 50 then (["Unusually low image contrast"], 5) else ([], 0)
    let heavilyCompressed := match q.jpegSizeRatio with
      | some r => decide (r > 1.5)
      | none => false
    let compInd : List String × ℕ :=
      if q.format = "jpeg" ∧ heavilyCompressed = true then
        (["Image shows signs of multiple compressions"], 10)
      else ([], 0)
    { hasQuality := true,
      fraudIndicators := resInd.1 ++ blurInd.1 ++ contrastInd.1 ++ compInd.1,
      fraudScore := resInd.2 + blurInd.2 + contrastInd.2 + compInd.2 }

/-- Edit-detection measurements; a `none` variance/drift models the inner
helper catching an error and reporting a negative outcome. -/
structure EditInput where
  ok : Bool
  lightingVariance : Option ℚ
  elaChannelDiff : Option ℚ
  width : ℕ
  height : ℕ
  deriving DecidableEq

/-- Aspect ratios of common stock photos (1:1, 3:2, 16:9, 2:1). -/
def commonStockRatios : List ℚ := [1.0, 1.5, 1.778, 2.0]

/-- Result of the edit-detection sub-check. -/
structure EditResult where
  editingDetected : Bool
  fraudIndicators : List String
  fraudScore : ℕ
  deriving DecidableEq

/-- detectImageEditing: inconsistent lighting (+15), ELA-proxy drift (+20)
and stock-photo aspect ratio at high resolution (+10). -/
def detectImageEditing (e : EditInput) : EditResult :=
  if !e.ok then { editingDetected := false, fraudIndicators := [], fraudScore := 0 }
  else
    let lightingBad := match e.lightingVariance with
      | some v => decide (v > 2000)
      | none => false
    let elaBad := match e.elaChannelDiff with
      | some d => decide (d > 30)
      | none => false
    let aspect : ℚ := (e.width : ℚ) / (e.height : ℚ)
    let isCommonRatio := commonStockRatios.any (fun r => decide (|aspect - r| < 0.01))
    let stockBad := isCommonRatio && decide (e.width ≥ 1920)
    { editingDetected := lightingBad || elaBad,
      fraudIndicators :=
        (if lightingBad then ["Inconsistent lighting detected - possible image manipulation"] else [])
        ++ (if elaBad then ["Potential image manipulation detected (ELA analysis)"] else [])
        ++ (if stockBad then ["Image dimensions match common stock photo formats"] else []),
      fraudScore := (if lightingBad then 15 else 0) + (if elaBad then 20 else 0)
        + (if stockBad then 10 else 0) }

/-- The process-wide perceptual-hash registry: claim identifier to the list
of hashes registered for it, in insertion order. -/
abbrev HashStore := List (String × List String)

/-- hammingDistance of the source: count positions where the two hash
strings differ, over the shorter length. -/
def hammingDistance (hash1 hash2 : String) : ℕ :=
  (((hash1.toList.zip hash2.toList)).filter (fun p => p.1 != p.2)).length

/-- All cross-claim duplicate matches of `hash`: one entry per stored hash
under a different claim identifier whose Hamming distance is below 5,
carrying the similarity percentage `100 - distance * 6.25`. -/
def duplicateMatches (hash : String) (claimIdentifier : Option String)
    (store : HashStore) : List (String × ℚ) :=
  store.foldl (fun acc entry =>
    if some entry.1 ≠ claimIdentifier then
      acc ++ ((entry.2.filter (fun storedHash => hammingDistance hash storedHash < 5)).map
        (fun storedHash => (entry.1, 100 - (hammingDistance hash storedHash : ℚ) * 6.25)))
    else acc) []

/-- Register a hash under a claim identifier (append, never overwrite); a
missing identifier registers nothing. -/
def storeAdd (store : HashStore) (claimIdentifier : Option String) (h : String) : HashStore :=
  match claimIdentifier with
  | none => store
  | some cid =>
      if store.any (fun entry => entry.1 == cid) then
        store.map (fun entry => if entry.1 = cid then (entry.1, entry.2 ++ [h]) else entry)
      else store ++ [(cid, [h])]

/-- Result of the perceptual-hash sub-check. -/
structure HashResult where
  hash : Option String
  duplicates : List (String × ℚ)
  fraudIndicators : List String
  fraudScore : ℕ
  deriving DecidableEq

/-- calculatePerceptualHash: compare against every hash stored for other
claims, add one indicator and a +30 penalty when any duplicates were found,
then register the new hash.  A `none` hash models the hashing library
throwing (the catch path: empty result, registry untouched). -/
def calculatePerceptualHash (hashVal : Option String) (claimIdentifier : Option String)
    (store : HashStore) : HashResult × HashStore :=
  match hashVal with
  | none => ({ hash := none, duplicates := [], fraudIndicators := [], fraudScore := 0 }, store)
  | some h =>
      let duplicates := duplicateMatches h claimIdentifier store
      let n := duplicates.length
      let inds : List String :=
        if duplicates.length > 0 then [s!"Image matches photos from {n} other claim(s)"] else []
      let score := if duplicates.length > 0 then 30 else 0
      ({ hash := some h, duplicates := duplicates, fraudIndicators := inds, fraudScore := score },
       storeAdd store claimIdentifier h)

/-- Channel statistics for one image; `ok = false` models the stats call
throwing (no labels detected). -/
structure ColorInput where
  ok : Bool
  avgRed : ℚ
  avgGreen : ℚ
  avgBlue : ℚ
  highEdgeDensity : Bool
  deriving DecidableEq

/-- detectObjects: coarse content labels from dominant-channel ratios and
edge density, each with a fixed confidence. -/
def detectObjects (c : ColorInput) : List (String × ℚ) :=
  if !c.ok then []
  else
    (if c.avgBlue > c.avgRed ∧ c.avgBlue > c.avgGreen ∧ c.avgBlue > 150 then
       [("outdoor_scene", (0.6 : ℚ))] else [])
    ++ (if c.avgGreen > c.avgRed ∧ c.avgGreen > c.avgBlue then [("vegetation", (0.5 : ℚ))] else [])
    ++ (if |c.avgRed - c.avgGreen| < 20 ∧ |c.avgGreen - c.avgBlue| < 20
           ∧ c.avgRed > 80 ∧ c.avgRed < 180 then [("vehicle", (0.4 : ℚ))] else [])
    ++ (if c.avgRed > c.avgBlue ∧ c.avgGreen > c.avgBlue ∧ c.avgRed > 100 then
          [("building_interior", (0.4 : ℚ))] else [])
    ++ (if c.avgRed > 200 ∧ c.avgGreen < 150 ∧ c.avgBlue < 150 then
          [("fire_damage", (0.5 : ℚ))] else [])
    ++ (if c.avgBlue > 120 ∧ c.avgRed > 80 then [("water_damage", (0.3 : ℚ))] else [])
    ++ (if c.highEdgeDensity then [("structural_damage", (0.5 : ℚ))] else [])

/-- Expected content labels per claim type. -/
def expectedObjectsFor (claimType : String) : List String :=
  if claimType = "auto" then ["vehicle", "car", "automobile", "outdoor_scene", "structural_damage"]
  else if claimType = "home" then
    ["building_interior", "house", "building", "fire_damage", "water_damage", "structural_damage"]
  else if claimType = "health" then ["medical", "hospital", "document", "person"]
  else []

/-- Result of the claim-type consistency check. -/
structure ClaimTypeResult where
  typeMatches : Bool
  fraudIndicators : List String
  fraudScore : ℕ
  deriving DecidableEq

/-- verifyClaimType: +15 when labels were detected but none intersects the
expected set for the claim type (substring match in either direction). -/
def verifyClaimType (detectedObjects : List (String × ℚ)) (claimType : Option String) :
    ClaimTypeResult :=
  if !(jsTruthy claimType) || detectedObjects.isEmpty then
    { typeMatches := false, fraudIndicators := [], fraudScore := 0 }
  else
    let ct := claimType.getD ""
    let expected := expectedObjectsFor (strToLower ct)
    let objectLabels := detectedObjects.map (fun o => strToLower o.1)
    let matched := objectLabels.filter
      (fun l => expected.any (fun ex => strIncludes l ex || strIncludes ex l))
    if matched.length > 0 then { typeMatches := true, fraudIndicators := [], fraudScore := 0 }
    else
      -- the source message uses a contraction; the apostrophe is expanded here
      { typeMatches := false,
        fraudIndicators := [s!"Image content does not appear to match {ct} claim type"],
        fraudScore := 15 }

/-- Result of the capture-date vs incident-date check. -/
structure DateCheckResult where
  fraudIndicators : List String
  fraudScore : ℕ
  deriving DecidableEq

/-- verifyImageDate: signed day difference between capture and incident,
with penalties 25 / 15 / 5 for the three suspicious ranges. -/
def verifyImageDate (imageDateMs incidentDateMs : ℤ) : DateCheckResult :=
  let diffDays := (imageDateMs - incidentDateMs).fdiv 86400000
  if diffDays < -30 then
    let d := diffDays.natAbs
    { fraudIndicators := [s!"Photo was taken {d} days before claimed incident"], fraudScore := 25 }
  else if diffDays < -7 then
    let d := diffDays.natAbs
    { fraudIndicators := [s!"Photo was taken {d} days before claimed incident"], fraudScore := 15 }
  else if diffDays > 30 then
    { fraudIndicators := [s!"Photo was taken {diffDays} days after claimed incident"], fraudScore := 5 }
  else { fraudIndicators := [], fraudScore := 0 }

/-- Claim context threaded into image analysis. -/
structure ClaimContext where
  claimType : Option String
  incidentDate : Option ℤ
  policyNumber : Option String
  deriving DecidableEq

/-- All sub-check measurements for one image; `failed = true` models the
whole per-image pipeline throwing (unreadable bytes). -/
structure ImageInput where
  failed : Bool
  exif : ExifInput
  quality : QualityInput
  edit : EditInput
  perceptualHash : Option String
  colors : ColorInput
  deriving DecidableEq

/-- Per-image analysis record. -/
structure ImageAnalysisResult where
  fraudIndicators : List String
  fraudScore : ℕ
  metadataDateTime : Option ℤ
  metadataCameraMake : Option String
  qualityRecorded : Bool
  editingDetected : Bool
  duplicateCheckHash : Option String
  duplicates : List (String × ℚ)
  detectedObjects : List (String × ℚ)
  claimTypeMatches : Bool
  confidence : ℕ
  riskLevel : Option String
  error : Bool
  deriving DecidableEq

/-- Risk tier of the image service (60 / 30 thresholds). -/
def getRiskLevel (score : ℚ) : String :=
  if score ≥ 60 then "HIGH" else if score ≥ 30 then "MEDIUM" else "LOW"

/-- calculateConfidence: base 50 plus completeness bonuses, capped at 100. -/
def calculateConfidence (r : ImageAnalysisResult) : ℕ :=
  min (50 + (if r.metadataDateTime.isSome then 10 else 0)
    + (if jsTruthy r.metadataCameraMake then 5 else 0)
    + (if r.qualityRecorded then 10 else 0)
    + (if r.duplicateCheckHash.isSome then 15 else 0)
    + (if r.detectedObjects.length > 0 then 10 else 0)) 100

/-- analyzeImage: run the five sub-checks, merge their indicators and
penalties in source order, add the claim-type and date checks, cap the score
at 100.  On a pipeline failure return the fixed corrupt-file result. -/
def analyzeImage (input : ImageInput) (claimData : ClaimContext) (store : HashStore) :
    ImageAnalysisResult × HashStore :=
  if input.failed then
    ({ fraudIndicators := ["Image analysis failed - possible corrupt or invalid file"],
       fraudScore := 15, metadataDateTime := none, metadataCameraMake := none,
       qualityRecorded := false, editingDetected := false, duplicateCheckHash := none,
       duplicates := [], detectedObjects := [], claimTypeMatches := false,
       confidence := 0, riskLevel := none, error := true }, store)
  else
    let exifResults := extractExifMetadata input.exif
    let qualityResults := analyzeImageQuality input.quality
    let editDetection := detectImageEditing input.edit
    let hashPair := calculatePerceptualHash input.perceptualHash claimData.policyNumber store
    let objects := detectObjects input.colors
    let claimTypeVerification := verifyClaimType objects claimData.claimType
    let dateCheck : DateCheckResult :=
      match exifResults.dateTime, claimData.incidentDate with
      | some d, some i => verifyImageDate d i
      | _, _ => { fraudIndicators := [], fraudScore := 0 }
    let score := min (exifResults.fraudScore + qualityResults.fraudScore
      + editDetection.fraudScore + hashPair.1.fraudScore
      + claimTypeVerification.fraudScore + dateCheck.fraudScore) 100
    let base : ImageAnalysisResult :=
      { fraudIndicators := exifResults.fraudIndicators ++ qualityResults.fraudIndicators
          ++ editDetection.fraudIndicators ++ hashPair.1.fraudIndicators
          ++ claimTypeVerification.fraudIndicators ++ dateCheck.fraudIndicators,
        fraudScore := score, metadataDateTime := exifResults.dateTime,
        metadataCameraMake := exifResults.cameraMake,
        qualityRecorded := qualityResults.hasQuality,
        editingDetected := editDetection.editingDetected,
        duplicateCheckHash := hashPair.1.hash, duplicates := hashPair.1.duplicates,
        detectedObjects := objects, claimTypeMatches := claimTypeVerification.typeMatches,
        confidence := 0, riskLevel := none, error := false }
    ({ base with confidence := calculateConfidence base,
                 riskLevel := some (getRiskLevel (score : ℚ)) }, hashPair.2)

/-- JavaScript number that may be NaN (the value `0/0` produces). -/
inductive JSNum
  | nan
  | num (q : ℚ)
  deriving DecidableEq

/-- Addition of a constant; NaN propagates. -/
def JSNum.addQ : JSNum → ℚ → JSNum
  | nan, _ => nan
  | num q, k => num (q + k)

/-- `Math.min` with a constant; `Math.min(NaN, c)` is NaN. -/
def JSNum.minQ : JSNum → ℚ → JSNum
  | nan, _ => nan
  | num q, k => num (min q k)

/-- Risk tier over a possibly-NaN score: every NaN comparison is false in
JS, so a NaN score falls through to LOW. -/
def getRiskLevelJS : JSNum → String
  | JSNum.nan => "LOW"
  | JSNum.num q => getRiskLevel q

/-- Aggregate record returned by analyzeMultipleImages. -/
structure MultiImageResult where
  imageCount : ℕ
  individualResults : List ImageAnalysisResult
  combinedFraudScore : JSNum
  combinedIndicators : List String
  overallRiskLevel : String
  confidence : ℚ
  deriving DecidableEq

/-- findInternalDuplicates: all pairs of submitted hashes at Hamming
distance below 3 (each pair reported once, in index order). -/
def findInternalDuplicates : List String → List (String × String)
  | [] => []
  | h :: t => ((t.filter (fun h2 => hammingDistance h h2 < 3)).map (fun h2 => (h, h2)))
      ++ findInternalDuplicates t

/-- De-duplicate indicators preserving first-insertion order (the JS Set). -/
def dedupIndicators (l : List String) : List String :=
  l.foldl (fun acc i => if acc.contains i then acc else acc ++ [i]) []

/-- Run analyzeImage over each image in order, threading the hash registry. -/
def runImages : List ImageInput → ClaimContext → HashStore →
    List ImageAnalysisResult × HashStore
  | [], _, store => ([], store)
  | i :: rest, claimData, store =>
      let first := analyzeImage i claimData store
      let others := runImages rest claimData first.2
      (first.1 :: others.1, others.2)

/-- analyzeMultipleImages: mean of the per-image scores (on an empty list the
JS source divides 0 by 0, producing NaN), +20 for internal duplicates, +15
for an empty image list, capped at 100 by `Math.min`. -/
def analyzeMultipleImages (images : List ImageInput) (claimData : ClaimContext)
    (store : HashStore) : MultiImageResult × HashStore :=
  let run := runImages images claimData store
  let allResults := run.1
  let allHashes := allResults.filterMap (fun r => r.duplicateCheckHash)
  let internalDuplicates := findInternalDuplicates allHashes
  let totalScore : ℚ := allResults.foldl (fun sum r => sum + (r.fraudScore : ℚ)) 0
  let score0 : JSNum :=
    if allResults.length = 0 then JSNum.nan
    else JSNum.num ((round (totalScore / (allResults.length : ℚ)) : ℤ) : ℚ)
  let inds0 := dedupIndicators (allResults.foldl (fun acc r => acc ++ r.fraudIndicators) [])
  let ndup := internalDuplicates.length
  let withDup : JSNum × List String :=
    if internalDuplicates.length > 0 then
      (score0.addQ 20, inds0 ++ [s!"{ndup} duplicate images detected in submission"])
    else (score0, inds0)
  let withEmpty : JSNum × List String :=
    if images.length = 0 then (withDup.1.addQ 15, withDup.2 ++ ["No damage photos provided"])
    else withDup
  let finalScore := withEmpty.1.minQ 100
  ({ imageCount := images.length, individualResults := allResults,
     combinedFraudScore := finalScore, combinedIndicators := withEmpty.2,
     overallRiskLevel := getRiskLevelJS finalScore,
     confidence := (allResults.foldl (fun sum r => sum + (r.confidence : ℚ)) 0)
       / (max allResults.length 1 : ℚ) }, run.2)

/-! ## Fraud fusion engine (fraudDetection.analyzeClaim) -/

/-- Parsed incident date of the submission.  `getDay` depends on the local
timezone in JS, so the weekday is carried alongside the epoch value rather
than recomputed; `none` models a date string `new Date` cannot parse. -/
structure IncidentDate where
  ms : ℤ
  dayOfWeek : ℕ
  deriving DecidableEq

/-- Legacy OCR extraction consumed by the fallback path of analyzeClaim.
`coverageAmount` is the `parseInt` result of the raw field; `some` means the
raw field was present, a non-empty digit string from the legacy OCR service,
which is truthy even when it parses to 0. -/
structure LegacyExtracted where
  error : Option String
  policyNumber : Option String
  coverageAmount : Option ℤ
  deriving DecidableEq

/-- Claim submission record consumed by analyzeClaim. -/
structure ClaimData where
  claimAmount : ℚ
  incidentDate : Option IncidentDate
  description : Option String
  policyNumber : String
  claimType : Option String
  documentValidation : Option ValidationResult
  extractedData : Option LegacyExtracted
  deriving DecidableEq

/-- The fixed high-risk keyword watch list of behavioural rule 6. -/
def suspiciousKeywords : List String :=
  ["total loss", "completely destroyed", "stolen", "fire", "flood"]

/-- The six behavioural/text rules of analyzeClaim, in source order: high
amount (+25), same-day submission (+20), short description (+15), weekend
incident (+10), round amount (+10), two or more watch-list keywords (+15).
`nowMs` is the wall clock used for the same-day rule. -/
def behavioralAnalysis (c : ClaimData) (nowMs : ℤ) : List String × ℕ :=
  let r1 : List String × ℕ :=
    if c.claimAmount > 50000 then (["High claim amount detected"], 25) else ([], 0)
  let sameDay : Bool :=
    match c.incidentDate with
    | some d => (nowMs - d.ms).fdiv 86400000 == 0
    | none => false
  let r2 : List String × ℕ :=
    if sameDay then (["Claim submitted on same day as incident"], 20) else ([], 0)
  let r3 : List String × ℕ :=
    if jsTruthy c.description ∧ (c.description.getD "").length < 50 then
      (["Insufficient incident description"], 15)
    else ([], 0)
  let weekend : Bool :=
    match c.incidentDate with
    | some d => d.dayOfWeek == 0 || d.dayOfWeek == 6
    | none => false
  let r4 : List String × ℕ :=
    if weekend then (["Incident occurred on weekend"], 10) else ([], 0)
  let r5 : List String × ℕ :=
    if (c.claimAmount / 1000).den = 1 then (["Claim amount is a round number"], 10) else ([], 0)
  let descLower := strToLower (c.description.getD "")
  let foundKeywords := suspiciousKeywords.filter (fun kw => strIncludes descLower kw)
  let joined := String.intercalate ", " foundKeywords
  let r6 : List String × ℕ :=
    if foundKeywords.length ≥ 2 then ([s!"Multiple high-risk keywords: {joined}"], 15) else ([], 0)
  (r1.1 ++ r2.1 ++ r3.1 ++ r4.1 ++ r5.1 ++ r6.1, r1.2 + r2.2 + r3.2 + r4.2 + r5.2 + r6.2)

/-- Document section of analyzeClaim: with a documentValidation result its
indicators and score are adopted; otherwise, with legacy extractedData and no
error, the two legacy rules (+30 strict policy-number inequality, +20 claim
above 90% of coverage) add to the text score.  Returns
(indicators, legacy score added to the text score, documentValidationScore). -/
def documentSection (c : ClaimData) : List String × ℕ × ℕ :=
  match c.documentValidation with
  | some docVal => (docVal.indicators, 0, docVal.fraudScore)
  | none =>
      match c.extractedData with
      | some ex =>
          if !(jsTruthy ex.error) then
            let leg1 : List String × ℕ :=
              if jsTruthy ex.policyNumber ∧ ex.policyNumber.getD "" ≠ c.policyNumber then
                (["Policy number mismatch with document"], 30)
              else ([], 0)
            let leg2 : List String × ℕ :=
              match ex.coverageAmount with
              | some cov =>
                  if c.claimAmount > (cov : ℚ) * 0.9 then
                    (["Claim near or exceeds coverage limit"], 20)
                  else ([], 0)
              | none => ([], 0)
            (leg1.1 ++ leg2.1, leg1.2 + leg2.2, 0)
          else ([], 0, 0)
      | none => ([], 0, 0)

/-- Risk tier of the fusion engine (70 / 40 thresholds). -/
def getFraudRiskLevel (score : ℤ) : String :=
  if score ≥ 70 then "HIGH" else if score ≥ 40 then "MEDIUM" else "LOW"

/-- Recommendation of the fusion engine. -/
def getRecommendation (score : ℤ) : String :=
  if score ≥ 70 then "MANUAL_REVIEW_REQUIRED"
  else if score ≥ 40 then "ADDITIONAL_VERIFICATION"
  else "AUTO_APPROVE"

/-- JS `x || 0` over a possibly-NaN number: NaN and 0 are falsy. -/
def jsNumOrZero : JSNum → ℚ
  | JSNum.nan => 0
  | JSNum.num q => if q = 0 then 0 else q

/-- Weighted sub-score breakdown attached to a fraud analysis. -/
structure FraudBreakdown where
  textAnalysisScore : ℕ
  documentValidationScore : ℕ
  imageAnalysisScore : ℚ
  weightText : ℚ
  weightDocVal : ℚ
  weightImage : ℚ
  deriving DecidableEq

/-- Fusion output record. -/
structure FraudAnalysis where
  fraudScore : ℤ
  indicators : List String
  riskLevel : String
  recommendation : String
  documentValidationIsValid : Option Bool
  breakdown : FraudBreakdown
  deriving DecidableEq

/-- analyzeClaim: behavioural rules, document section, image indicators, then
the presence-dependent weighted fusion (0.35/0.35/0.30, 0.5/0.5, 0.6/0.4 or
text-only) with rounding and the final clamp to [0, 100].  The multi-image
aggregate is passed in (the source computes it from the uploaded buffers when
at least one is present; `none` models an empty buffer list). -/
def analyzeClaim (claimData : ClaimData) (imageAnalysisResults : Option MultiImageResult)
    (nowMs : ℤ) : FraudAnalysis :=
  let behavioral := behavioralAnalysis claimData nowMs
  let docSection := documentSection claimData
  let documentValidationScore := docSection.2.2
  let imageInds : List String :=
    match imageAnalysisResults with
    | some r => r.combinedIndicators
    | none => ["No damage photos provided for verification"]
  let indicators := behavioral.1 ++ docSection.1 ++ imageInds
  let fraudScoreRaw := behavioral.2 + docSection.2.1
  let textScore : ℕ := min fraudScoreRaw 100
  let imageScore : ℚ :=
    match imageAnalysisResults with
    | some r => jsNumOrZero r.combinedFraudScore
    | none => 0
  let combined : ℤ :=
    match imageAnalysisResults, claimData.documentValidation with
    | some _, some _ =>
        round ((textScore : ℚ) * 0.35 + (documentValidationScore : ℚ) * 0.35 + imageScore * 0.30)
    | none, some _ => round ((textScore : ℚ) * 0.5 + (documentValidationScore : ℚ) * 0.5)
    | some _, none => round ((textScore : ℚ) * 0.6 + imageScore * 0.4)
    | none, none => (textScore : ℤ)
  let combinedScore : ℤ := max 0 (min 100 combined)
  { fraudScore := combinedScore,
    indicators := indicators,
    riskLevel := getFraudRiskLevel combinedScore,
    recommendation := getRecommendation combinedScore,
    documentValidationIsValid := claimData.documentValidation.map (fun dv => dv.isValid),
    breakdown := { textAnalysisScore := textScore,
                   documentValidationScore := documentValidationScore,
                   imageAnalysisScore := imageScore,
                   weightText := 0.35, weightDocVal := 0.35, weightImage := 0.30 } }

/-! ## Decision engine (decisionEngine.makeDecision) -/

/-- Bullet list used inside the explanation templates. -/
def bulletList (indicators : List String) : String :=
  String.intercalate "\n" (indicators.map (fun i => "• " ++ i))

/-- generateExplanation: the three status templates.  The fixed prose of the
source templates is abridged; the variable content (score, claim amount and
the indicator bullets) is kept.  Locale number formatting (`toLocaleString`)
is abstracted to `toString`. -/
def generateExplanation (decision : String) (fraudScore : ℤ) (indicators : List String)
    (claimAmount : ℚ) : String :=
  let amount := toString claimAmount
  let bullets := bulletList indicators
  if decision = "approved" then
    s!"CLAIM APPROVED\nFraud Risk Score: {fraudScore}/100 (Low Risk)\nClaim Amount: ${amount}\n"
      ++ (if indicators.length > 0 then
            s!"Minor Observations:\n{bullets}\nThese factors are noted but do not indicate fraudulent activity."
          else "No fraud indicators detected. All verification checks passed successfully.")
  else if decision = "pending" then
    s!"ADDITIONAL VERIFICATION REQUIRED\nFraud Risk Score: {fraudScore}/100 (Medium Risk)\nClaim Amount: ${amount}\nFlagged Items:\n{bullets}"
  else
    s!"CLAIM FLAGGED FOR FRAUD INVESTIGATION\nFraud Risk Score: {fraudScore}/100 (High Risk)\nClaim Amount: ${amount}\nCritical Issues Detected:\n{bullets}"

/-- Disposition record returned by makeDecision. -/
structure Decision where
  status : String
  explanation : String
  confidence : ℕ
  fraudScore : ℤ
  riskLevel : String
  recommendation : String
  processedAt : ℤ
  deriving DecidableEq

/-- makeDecision: score at least 70 is FLAGGED with confidence 95, at least
40 is PENDING with confidence 75, otherwise APPROVED with confidence 90.
`nowMs` is the wall clock recorded in `processedAt`. -/
def makeDecision (fraudAnalysis : FraudAnalysis) (claimAmount : ℚ) (nowMs : ℤ) : Decision :=
  let fs := fraudAnalysis.fraudScore
  if fs ≥ 70 then
    { status := "FLAGGED", confidence := 95,
      explanation := generateExplanation "flagged" fs fraudAnalysis.indicators claimAmount,
      fraudScore := fs, riskLevel := fraudAnalysis.riskLevel,
      recommendation := fraudAnalysis.recommendation, processedAt := nowMs }
  else if fs ≥ 40 then
    { status := "PENDING", confidence := 75,
      explanation := generateExplanation "pending" fs fraudAnalysis.indicators claimAmount,
      fraudScore := fs, riskLevel := fraudAnalysis.riskLevel,
      recommendation := fraudAnalysis.recommendation, processedAt := nowMs }
  else
    { status := "APPROVED", confidence := 90,
      explanation := generateExplanation "approved" fs fraudAnalysis.indicators claimAmount,
      fraudScore := fs, riskLevel := fraudAnalysis.riskLevel,
      recommendation := fraudAnalysis.recommendation, processedAt := nowMs }

/-! ## Verdict predicates of the validation service

One boolean per invalidating verdict of validateDocumentData, each restating
the branch condition of the corresponding section. -/

/-- The policy-number comparison reached a definite mismatch. -/
def policyMismatchCond (e : ExtractedData) (f : FormData) : Bool :=
  let structured := e.structuredData.getD emptyStructuredData
  let extractedPolicyNumber := jsOrStr structured.policyNumber e.policyNumber
  let normalizedExtracted := normalizePolicyNumber extractedPolicyNumber
  let normalizedSubmitted := normalizePolicyNumber f.policyNumber
  jsTruthy extractedPolicyNumber && !decide (normalizedExtracted = normalizedSubmitted)
    && !decide (stringSimilarity normalizedExtracted normalizedSubmitted ≥ 0.9)

/-- The claimant-name comparison reached a definite mismatch. -/
def nameMismatchCond (e : ExtractedData) (f : FormData) : Bool :=
  let structured := e.structuredData.getD emptyStructuredData
  let extractedName :=
    jsOrStr (jsOrStr structured.policyHolder structured.insuredName) e.policyHolder
  jsTruthy extractedName
    && !decide (stringSimilarity (normalizeName extractedName) (normalizeName f.claimantName) ≥ 0.95)
    && !decide (stringSimilarity (normalizeName extractedName) (normalizeName f.claimantName) ≥ 0.7)

/-- The claim amount exceeds the selected coverage limit. -/
def coverageExceedsCond (e : ExtractedData) (f : FormData) : Bool :=
  decide ((coverageMaxFor e).1 > 0) && decide (f.claimAmount > (coverageMaxFor e).1)

/-- The incident date precedes the policy effective date. -/
def incidentBeforeEffectiveCond (e : ExtractedData) (f : FormData) : Bool :=
  match (e.structuredData.getD emptyStructuredData).effectiveDate, f.incidentDate with
  | some eff, some inc => decide (inc < eff)
  | _, _ => false

/-- The incident date follows the policy expiration date. -/
def incidentAfterExpirationCond (e : ExtractedData) (f : FormData) : Bool :=
  match (e.structuredData.getD emptyStructuredData).expirationDate, f.incidentDate with
  | some expd, some inc => decide (inc > expd)
  | _, _ => false

/-- The extraction carries a failed authenticity verdict. -/
def authenticityFailedCond (e : ExtractedData) : Bool :=
  match e.authenticity with
  | some a => !a.isAuthentic
  | none => false

/-- Disjunction of the five invalidating verdicts (the two date verdicts are
the two halves of the policy-window check). -/
def anyInvalidatingVerdict (e : ExtractedData) (f : FormData) : Bool :=
  policyMismatchCond e f || nameMismatchCond e f || coverageExceedsCond e f
    || incidentBeforeEffectiveCond e f || incidentAfterExpirationCond e f
    || authenticityFailedCond e

/-! ## Concrete records used to exercise the theorems -/

/-- A form submission used as a fixed input. -/
def exampleForm : FormData :=
  { policyNumber := some "POL123456", claimantName := some "Jane Roe",
    claimAmount := 5000, incidentDate := none }

/-- Structured data whose policy number definitely mismatches `exampleForm`. -/
def mismatchStructured : StructuredData :=
  { emptyStructuredData with policyNumber := some "POL-999999" }

/-- An extraction whose policy number definitely mismatches `exampleForm`. -/
def mismatchExtracted : ExtractedData :=
  { error := none, structuredData := some mismatchStructured,
    policyNumber := none, policyHolder := none, coverageAmount := none,
    authenticity := none, documentType := none, overallConfidence := none, confidence := none }

/-- Structured data carrying the spec scenario policy number "POL-123456". -/
def scenarioCStructured : StructuredData :=
  { emptyStructuredData with policyNumber := some "POL-123456" }

/-- An extraction carrying the spec scenario policy number "POL-123456". -/
def scenarioCExtracted : ExtractedData :=
  { mismatchExtracted with structuredData := some scenarioCStructured }

/-- A minimal claim submission with no optional signals. -/
def bareClaim : ClaimData :=
  { claimAmount := 100, incidentDate := none, description := none,
    policyNumber := "POL123456", claimType := none,
    documentValidation := none, extractedData := none }

/-- A fraud analysis carrying only a score (used to probe makeDecision). -/
def scoreOnlyAnalysis (s : ℤ) : FraudAnalysis :=
  { fraudScore := s, indicators := [], riskLevel := getFraudRiskLevel s,
    recommendation := getRecommendation s, documentValidationIsValid := none,
    breakdown := { textAnalysisScore := 0, documentValidationScore := 0,
                   imageAnalysisScore := 0, weightText := 0.35, weightDocVal := 0.35,
                   weightImage := 0.30 } }

/-- A registry holding two near-identical hashes under one other claim. -/
def twoHashStore : HashStore := [("CLM-A", ["aaaaaaaa", "aaaaaaab"])]

/-- Incident date ten days before the probe clock `legacyProbeNow`. -/
def legacyIncident : IncidentDate := { ms := 0, dayOfWeek := 2 }

/-- Probe clock for the legacy-fallback scenario (ten days after epoch). -/
def legacyProbeNow : ℤ := 864000000

/-- Legacy extraction whose policy number differs from the submitted one. -/
def legacyMismatchExtracted : LegacyExtracted :=
  { error := none, policyNumber := some "POL-111111", coverageAmount := none }

/-- A submission that trips only the legacy policy-number rule. -/
def legacyProbeClaim : ClaimData :=
  { claimAmount := 12345, incidentDate := some legacyIncident,
    description := some "The insured vehicle was parked overnight and sustained body damage",
    policyNumber := "POL-222222", claimType := some "auto",
    documentValidation := none, extractedData := some legacyMismatchExtracted }

/-- A neutral multi-image aggregate with score 0 and no indicators. -/
def neutralImageAggregate : MultiImageResult :=
  { imageCount := 1, individualResults := [], combinedFraudScore := JSNum.num 0,
    combinedIndicators := [], overallRiskLevel := "LOW", confidence := 0 }

/-- An image whose per-image pipeline failed (unreadable bytes). -/
def corruptImage : ImageInput :=
  { failed := true,
    exif := { parseOk := false, dateTime := none, gpsLatitude := none, gpsLongitude := none,
              cameraMake := none, cameraModel := none, software := none },
    quality := { ok := false, width := 0, height := 0, format := "", sharpness := 0,
                 contrast := 0, jpegSizeRatio := none },
    edit := { ok := false, lightingVariance := none, elaChannelDiff := none,
              width := 0, height := 0 },
    perceptualHash := none,
    colors := { ok := false, avgRed := 0, avgGreen := 0, avgBlue := 0,
                highEdgeDensity := false } }

/-- An empty claim context. -/
def emptyContext : ClaimContext :=
  { claimType := none, incidentDate := none, policyNumber := none }

/-- Authenticity sub-check outcomes with two failed heuristics (format and
scan quality). -/
def probeAuthChecks : AuthChecksInput :=
  { isPdf := false, formatConsistent := false, dateConsistent := true, dateIssues := [],
    hasTemplate := true, missingMajority := false,
    suspicious := { placeholder := false, sampleMarker := false, repetition := false,
                    mixedFormats := false },
    qualityPoor := true }

/-! ## Validity-tracking lemmas for the validation sections -/

/-- The policy-number section invalidates exactly on a definite mismatch. -/
theorem policyNumberStep_isValid (e : ExtractedData) (f : FormData) (s : ValidationCore) :
    (policyNumberStep e f s).isValid = (s.isValid && !policyMismatchCond e f) := by
  simp only [policyNumberStep, policyMismatchCond]
  split <;> (try split) <;> (try split) <;> simp_all

/-- The claimant-name section invalidates exactly on a definite mismatch. -/
theorem claimantNameStep_isValid (e : ExtractedData) (f : FormData) (s : ValidationCore) :
    (claimantNameStep e f s).isValid = (s.isValid && !nameMismatchCond e f) := by
  simp only [claimantNameStep, nameMismatchCond]
  split <;> (try split) <;> (try split) <;> simp_all

/-- The coverage section invalidates exactly when the claim exceeds coverage. -/
theorem coverageStep_isValid (e : ExtractedData) (f : FormData) (s : ValidationCore) :
    (coverageStep e f s).isValid = (s.isValid && !coverageExceedsCond e f) := by
  simp only [coverageStep, coverageExceedsCond]
  split <;> (try split) <;> (try split) <;> simp_all

/-- The effective-date section invalidates exactly when the incident precedes
the effective date. -/
theorem effectiveDateStep_isValid (e : ExtractedData) (f : FormData) (s : ValidationCore) :
    (effectiveDateStep e f s).isValid = (s.isValid && !incidentBeforeEffectiveCond e f) := by
  simp only [effectiveDateStep, incidentBeforeEffectiveCond]
  split <;> (try split) <;> simp_all

/-- The expiration-date section invalidates exactly when the incident follows
the expiration date. -/
theorem expirationDateStep_isValid (e : ExtractedData) (f : FormData) (s : ValidationCore) :
    (expirationDateStep e f s).isValid = (s.isValid && !incidentAfterExpirationCond e f) := by
  simp only [expirationDateStep, incidentAfterExpirationCond]
  split <;> (try split) <;> simp_all

/-- The authenticity section invalidates exactly on a failed verdict. -/
theorem authenticityStep_isValid (e : ExtractedData) (s : ValidationCore) :
    (authenticityStep e s).isValid = (s.isValid && !authenticityFailedCond e) := by
  simp only [authenticityStep, authenticityFailedCond]
  split <;> (try split) <;> (try split) <;> (try split) <;> simp_all

/-- The document-type section never touches the validity flag. -/
theorem documentTypeStep_isValid (e : ExtractedData) (s : ValidationCore) :
    (documentTypeStep e s).isValid = s.isValid := by
  simp only [documentTypeStep]
  split <;> (try split) <;> simp_all

/-- The OCR-confidence section never touches the validity flag. -/
theorem ocrConfidenceStep_isValid (e : ExtractedData) (s : ValidationCore) :
    (ocrConfidenceStep e s).isValid = s.isValid := by
  simp only [ocrConfidenceStep]
  split <;> (try split) <;> (try split) <;> simp_all

/-- Validity of the full section pipeline: false exactly when one of the
invalidating verdicts fired. -/
theorem validateCore_isValid (e : ExtractedData) (f : FormData) :
    (validateCore e f).isValid = !anyInvalidatingVerdict e f := by
  unfold validateCore anyInvalidatingVerdict
  simp only [ocrConfidenceStep_isValid, documentTypeStep_isValid, authenticityStep_isValid,
    expirationDateStep_isValid, effectiveDateStep_isValid, coverageStep_isValid,
    claimantNameStep_isValid, policyNumberStep_isValid]
  simp [initialCore, Bool.not_or, Bool.and_assoc]

/-- C3: for every extracted document (whose OCR did not fail) and form-field
pair, validateDocumentData returns isValid = false if and only if at least
one of the five invalidating verdicts was reached: policy-number mismatch,
claimant-name mismatch, claim amount exceeding the coverage limit, incident
date outside the policy window (before the effective date or after the
expiration date), or a failed authenticity check.  Probable matches,
not-found statuses and warnings never set isValid to false. -/
theorem validateDocumentData_isValid_iff_C3 (e : ExtractedData) (f : FormData) (now : ℤ)
    (herr : jsTruthy e.error = false) :
    (validateDocumentData (some e) f now).isValid = false ↔
      (policyMismatchCond e f || nameMismatchCond e f || coverageExceedsCond e f
        || incidentBeforeEffectiveCond e f || incidentAfterExpirationCond e f
        || authenticityFailedCond e) = true := by
  have h : (validateDocumentData (some e) f now).isValid = (validateCore e f).isValid := by
    simp [validateDocumentData, herr]
  rw [h, validateCore_isValid]
  unfold anyInvalidatingVerdict
  cases hb : (policyMismatchCond e f || nameMismatchCond e f || coverageExceedsCond e f
    || incidentBeforeEffectiveCond e f || incidentAfterExpirationCond e f
    || authenticityFailedCond e) <;> simp_all

/-- C3 witness: a concrete mismatching extraction is reported invalid. -/
theorem validateDocumentData_isValid_iff_C3_witness :
    (validateDocumentData (some mismatchExtracted) exampleForm 0).isValid = false :=
  (validateDocumentData_isValid_iff_C3 mismatchExtracted exampleForm 0 (by decide)).mpr
    (by with_unfolding_all decide)

/-- C9: when the extracted document is missing or carries a (truthy) error
field, validateDocumentData returns immediately with isValid = true,
fraudScore = 0, no indicators, and exactly one warning recording the OCR
failure. -/
theorem validateDocumentData_ocr_failure_C9 (ed : Option ExtractedData) (f : FormData) (now : ℤ)
    (h : ed = none ∨ ∃ e, ed = some e ∧ jsTruthy e.error = true) :
    (validateDocumentData ed f now).isValid = true
    ∧ (validateDocumentData ed f now).fraudScore = 0
    ∧ (validateDocumentData ed f now).indicators = []
    ∧ (validateDocumentData ed f now).warnings
        = ["Document OCR processing failed or returned no data"] := by
  rcases h with h | ⟨e, he, herr⟩
  · subst h
    refine ⟨rfl, rfl, rfl, rfl⟩
  · subst he
    simp [validateDocumentData, herr, failedCore, initialCore]

/-- C9 witness: a missing extraction at a concrete form input. -/
theorem validateDocumentData_ocr_failure_C9_witness :
    (validateDocumentData none exampleForm 0).isValid = true
    ∧ (validateDocumentData none exampleForm 0).fraudScore = 0
    ∧ (validateDocumentData none exampleForm 0).indicators = []
    ∧ (validateDocumentData none exampleForm 0).warnings
        = ["Document OCR processing failed or returned no data"] :=
  validateDocumentData_ocr_failure_C9 none exampleForm 0 (Or.inl rfl)

/-- C4: the policy-number section first normalizes both sides; equal
normalized forms give status "match" with zero penalty (in particular the
spec scenario "POL-123456" vs "POL123456" normalizes equal); otherwise a
similarity of at least 0.9 gives a probable match with a warning only and no
penalty; a similarity below 0.9 gives a definite mismatch with a fixed +30
penalty and isValid set to false; a missing extracted policy number gives the
distinct "not_found" status with a small +15 penalty and no invalidation. -/
theorem policyNumber_validation_C4 :
    normalizePolicyNumber (some "POL-123456") = normalizePolicyNumber (some "POL123456")
    ∧ ∀ (e : ExtractedData) (f : FormData) (s : ValidationCore),
      (jsTruthy (jsOrStr (e.structuredData.getD emptyStructuredData).policyNumber
          e.policyNumber) = false →
        (policyNumberStep e f s).policyNumberDetail.status = some "not_found"
        ∧ (policyNumberStep e f s).fraudScore = s.fraudScore + 15
        ∧ (policyNumberStep e f s).isValid = s.isValid
        ∧ (policyNumberStep e f s).warnings = s.warnings)
      ∧ (jsTruthy (jsOrStr (e.structuredData.getD emptyStructuredData).policyNumber
          e.policyNumber) = true →
         normalizePolicyNumber (jsOrStr (e.structuredData.getD emptyStructuredData).policyNumber
           e.policyNumber) = normalizePolicyNumber f.policyNumber →
        (policyNumberStep e f s).policyNumberDetail.status = some "match"
        ∧ (policyNumberStep e f s).policyNumberDetail.similarity = 1
        ∧ (policyNumberStep e f s).fraudScore = s.fraudScore
        ∧ (policyNumberStep e f s).indicators = s.indicators
        ∧ (policyNumberStep e f s).warnings = s.warnings
        ∧ (policyNumberStep e f s).isValid = s.isValid)
      ∧ (jsTruthy (jsOrStr (e.structuredData.getD emptyStructuredData).policyNumber
          e.policyNumber) = true →
         normalizePolicyNumber (jsOrStr (e.structuredData.getD emptyStructuredData).policyNumber
           e.policyNumber) ≠ normalizePolicyNumber f.policyNumber →
         stringSimilarity
           (normalizePolicyNumber (jsOrStr (e.structuredData.getD
             emptyStructuredData).policyNumber e.policyNumber))
           (normalizePolicyNumber f.policyNumber) ≥ 0.9 →
        (policyNumberStep e f s).policyNumberDetail.status = some "probable_match"
        ∧ (policyNumberStep e f s).fraudScore = s.fraudScore
        ∧ (policyNumberStep e f s).indicators = s.indicators
        ∧ (policyNumberStep e f s).warnings.length = s.warnings.length + 1
        ∧ (policyNumberStep e f s).isValid = s.isValid)
      ∧ (jsTruthy (jsOrStr (e.structuredData.getD emptyStructuredData).policyNumber
          e.policyNumber) = true →
         normalizePolicyNumber (jsOrStr (e.structuredData.getD emptyStructuredData).policyNumber
           e.policyNumber) ≠ normalizePolicyNumber f.policyNumber →
         stringSimilarity
           (normalizePolicyNumber (jsOrStr (e.structuredData.getD
             emptyStructuredData).policyNumber e.policyNumber))
           (normalizePolicyNumber f.policyNumber) < 0.9 →
        (policyNumberStep e f s).policyNumberDetail.status = some "mismatch"
        ∧ (policyNumberStep e f s).fraudScore = s.fraudScore + 30
        ∧ (policyNumberStep e f s).indicators.length = s.indicators.length + 1
        ∧ (policyNumberStep e f s).isValid = false) := by
  refine ⟨by decide, ?_⟩
  intro e f s
  refine ⟨?_, ?_, ?_, ?_⟩
  · intro hep
    simp [policyNumberStep, hep]
  · intro hep heq
    simp [policyNumberStep, hep, heq]
  · intro hep hne hsim
    simp [policyNumberStep, hep, hne, hsim]
  · intro hep hne hsim
    simp [policyNumberStep, hep, hne, not_le.mpr hsim]

/-- C4 witness: the spec scenario C, applied to the fresh state: extracted
"POL-123456" against submitted "POL123456" is a zero-penalty match. -/
theorem policyNumber_validation_C4_witness :
    (policyNumberStep scenarioCExtracted exampleForm initialCore).policyNumberDetail.status
        = some "match"
    ∧ (policyNumberStep scenarioCExtracted exampleForm initialCore).fraudScore
        = initialCore.fraudScore
    ∧ (policyNumberStep scenarioCExtracted exampleForm initialCore).indicators
        = initialCore.indicators
    ∧ (policyNumberStep scenarioCExtracted exampleForm initialCore).warnings
        = initialCore.warnings
    ∧ (policyNumberStep scenarioCExtracted exampleForm initialCore).isValid
        = initialCore.isValid := by
  have h := (policyNumber_validation_C4.2 scenarioCExtracted exampleForm initialCore).2.1
    (by decide) (by decide)
  exact ⟨h.1, h.2.2.1, h.2.2.2.1, h.2.2.2.2.1, h.2.2.2.2.2⟩

/-- C7 counterexample: two runs of validateDocumentData on identical inputs
but at different wall-clock instants differ (the result records the clock in
its timestamp field), so the functions are not pure byte-for-byte. -/
theorem timestamp_impurity_cex_C7 :
    validateDocumentData none exampleForm 0 ≠ validateDocumentData none exampleForm 1 := by
  decide

/-- C7 amended: for a fixed registry state and a fixed current time the
modelled entry points are deterministic, and for validateDocumentData and
makeDecision the clock influences only the timestamp/processedAt field. -/
theorem determinism_fixed_clock_C7 :
    (∀ e f t1 t2, ({ validateDocumentData e f t1 with timestamp := 0 } : ValidationResult)
        = { validateDocumentData e f t2 with timestamp := 0 })
    ∧ (∀ fa ca t1 t2, ({ makeDecision fa ca t1 with processedAt := 0 } : Decision)
        = { makeDecision fa ca t2 with processedAt := 0 })
    ∧ (∀ i cd st, analyzeImage i cd st = analyzeImage i cd st)
    ∧ (∀ imgs cd st, analyzeMultipleImages imgs cd st = analyzeMultipleImages imgs cd st)
    ∧ (∀ c img t, analyzeClaim c img t = analyzeClaim c img t)
    ∧ (∀ ed f t, validateDocumentData ed f t = validateDocumentData ed f t)
    ∧ (∀ fa ca t, makeDecision fa ca t = makeDecision fa ca t) := by
  refine ⟨?_, ?_, fun _ _ _ => rfl, fun _ _ _ => rfl, fun _ _ _ => rfl,
    fun _ _ _ => rfl, fun _ _ _ => rfl⟩
  · intro e f t1 t2
    rcases e with _ | e
    · rfl
    · simp only [validateDocumentData]
      split <;> rfl
  · intro fa ca t1 t2
    simp only [makeDecision]
    split <;> (try split) <;> rfl

/-- C8: checkAuthenticity starts from confidence 100, subtracts a fixed
penalty for each failed heuristic, returns isAuthentic = true exactly when
the resulting confidence exceeds 50, and floors the returned confidence at 0
so it is never negative. -/
theorem checkAuthenticity_C8 (c : AuthChecksInput) :
    (checkAuthenticity c).confidence = max 0 (100 - specAuthPenaltyTotal c)
    ∧ ((checkAuthenticity c).isAuthentic = true ↔ (checkAuthenticity c).confidence > 50)
    ∧ 0 ≤ (checkAuthenticity c).confidence := by
  have hsteps : (authSteps c).1 = 100 - specAuthPenaltyTotal c := by
    simp only [authSteps, specAuthPenaltyTotal]
    split <;> split <;> split <;> split <;> split <;> split <;> simp <;> omega
  refine ⟨?_, ?_, le_max_left _ _⟩
  · show max 0 (authSteps c).1 = _
    rw [hsteps]
  · show decide ((authSteps c).1 > 50) = true ↔ max 0 (authSteps c).1 > 50
    rw [decide_eq_true_eq, gt_iff_lt, gt_iff_lt, lt_max_iff]
    constructor
    · intro h; exact Or.inr h
    · rintro (h | h)
      · exact absurd h (by norm_num)
      · exact h

/-- C2: makeDecision maps the fraud score boundary-exactly: a score of at
least 70 gives FLAGGED with confidence 95, a score in [40, 70) gives PENDING
with confidence 75, a score below 40 gives APPROVED with confidence 90; in
particular 69 gives PENDING, 70 FLAGGED, 39 APPROVED and 40 PENDING. -/
theorem makeDecision_thresholds_C2 (fa : FraudAnalysis) (claimAmount : ℚ) (t : ℤ) :
    (70 ≤ fa.fraudScore →
      (makeDecision fa claimAmount t).status = "FLAGGED"
      ∧ (makeDecision fa claimAmount t).confidence = 95)
    ∧ (40 ≤ fa.fraudScore → fa.fraudScore < 70 →
      (makeDecision fa claimAmount t).status = "PENDING"
      ∧ (makeDecision fa claimAmount t).confidence = 75)
    ∧ (fa.fraudScore < 40 →
      (makeDecision fa claimAmount t).status = "APPROVED"
      ∧ (makeDecision fa claimAmount t).confidence = 90)
    ∧ (makeDecision (scoreOnlyAnalysis 69) claimAmount t).status = "PENDING"
    ∧ (makeDecision (scoreOnlyAnalysis 70) claimAmount t).status = "FLAGGED"
    ∧ (makeDecision (scoreOnlyAnalysis 39) claimAmount t).status = "APPROVED"
    ∧ (makeDecision (scoreOnlyAnalysis 40) claimAmount t).status = "PENDING" := by
  refine ⟨?_, ?_, ?_, rfl, rfl, rfl, rfl⟩
  · intro h
    simp [makeDecision, h]
  · intro h40 h70
    have h1 : ¬(fa.fraudScore ≥ 70) := by omega
    simp [makeDecision, h1, h40]
  · intro h
    have h1 : ¬(fa.fraudScore ≥ 70) := by omega
    have h2 : ¬(fa.fraudScore ≥ 40) := by omega
    simp [makeDecision, h1, h2]

/-- C2 witness: the decision at the concrete boundary score 70. -/
theorem makeDecision_thresholds_C2_witness :
    (makeDecision (scoreOnlyAnalysis 70) 1000 5).status = "FLAGGED"
    ∧ (makeDecision (scoreOnlyAnalysis 70) 1000 5).confidence = 95 :=
  (makeDecision_thresholds_C2 (scoreOnlyAnalysis 70) 1000 5).1 (by decide)

/-- C5 counterexample: with two stored hashes of another claim within
Hamming distance 5 of the new hash (k = 2), the duplicate check adds exactly
one indicator and one +30 penalty, not k indicators and k penalties. -/
theorem calculatePerceptualHash_cex_C5 :
    (calculatePerceptualHash (some "aaaaaaaa") (some "CLM-B") twoHashStore).1.duplicates.length = 2
    ∧ (calculatePerceptualHash (some "aaaaaaaa") (some "CLM-B")
        twoHashStore).1.fraudIndicators.length ≠ 2
    ∧ (calculatePerceptualHash (some "aaaaaaaa") (some "CLM-B")
        twoHashStore).1.fraudScore ≠ 60
    ∧ (calculatePerceptualHash (some "aaaaaaaa") (some "CLM-B")
        twoHashStore).1.fraudIndicators.length = 1
    ∧ (calculatePerceptualHash (some "aaaaaaaa") (some "CLM-B") twoHashStore).1.fraudScore = 30 := by
  with_unfolding_all decide

/-- C5 amended: when the perceptual hash matches k >= 1 hashes stored under
other claim identifiers (Hamming distance below 5), the duplicates list
records all k matches, but exactly one fraud indicator (naming the match
count) and one fixed +30 penalty are added, independent of k; the new hash
is then registered. -/
theorem calculatePerceptualHash_single_penalty_C5 (h : String) (cid : Option String)
    (store : HashStore) (hk : 1 ≤ (duplicateMatches h cid store).length) :
    (calculatePerceptualHash (some h) cid store).1.duplicates = duplicateMatches h cid store
    ∧ (calculatePerceptualHash (some h) cid store).1.fraudIndicators.length = 1
    ∧ (calculatePerceptualHash (some h) cid store).1.fraudScore = 30
    ∧ (calculatePerceptualHash (some h) cid store).2 = storeAdd store cid h := by
  have hpos : (duplicateMatches h cid store).length > 0 := hk
  simp only [calculatePerceptualHash]
  simp [hpos]

/-- C5 amended witness: the two-match registry yields a single indicator and
a single +30 penalty. -/
theorem calculatePerceptualHash_single_penalty_C5_witness :
    (calculatePerceptualHash (some "aaaaaaaa") (some "CLM-B")
        twoHashStore).1.fraudIndicators.length = 1
    ∧ (calculatePerceptualHash (some "aaaaaaaa") (some "CLM-B")
        twoHashStore).1.fraudScore = 30 :=
  ⟨(calculatePerceptualHash_single_penalty_C5 "aaaaaaaa" (some "CLM-B") twoHashStore
      (by with_unfolding_all decide)).2.1,
   (calculatePerceptualHash_single_penalty_C5 "aaaaaaaa" (some "CLM-B") twoHashStore
      (by with_unfolding_all decide)).2.2.1⟩

/-- C6 (code defect): on the empty image list analyzeMultipleImages divides
the zero total score by zero, so the combined fraud score is NaN rather than
a number in [0, 100]; the division is not guarded (only the confidence mean
is), and the +15 empty-list penalty and the clamp are absorbed by NaN
propagation.  The no-photos indicator is still appended. -/
theorem analyzeMultipleImages_empty_nan_C6 (cd : ClaimContext) (store : HashStore) :
    (analyzeMultipleImages [] cd store).1.combinedFraudScore = JSNum.nan
    ∧ (analyzeMultipleImages [] cd store).1.combinedIndicators = ["No damage photos provided"]
    ∧ (analyzeMultipleImages [] cd store).1.combinedFraudScore ≠ JSNum.num 0 := by
  exact ⟨rfl, rfl, fun h => JSNum.noConfusion h⟩

/-- C10 counterexample: a submission with legacy extractedData tripping the
+30 policy-number rule but accompanied by an image-analysis result is fused
through the 0.6/0.4 branch (score 18), not passed through at full weight
(which would leave fraudScore equal to the text score of 30). -/
theorem analyzeClaim_legacy_cex_C10 :
    (analyzeClaim legacyProbeClaim (some neutralImageAggregate)
        legacyProbeNow).breakdown.textAnalysisScore = 30
    ∧ (analyzeClaim legacyProbeClaim (some neutralImageAggregate) legacyProbeNow).fraudScore = 18
    ∧ (analyzeClaim legacyProbeClaim (some neutralImageAggregate) legacyProbeNow).fraudScore
        ≠ ((analyzeClaim legacyProbeClaim (some neutralImageAggregate)
            legacyProbeNow).breakdown.textAnalysisScore : ℤ) := by
  set_option maxHeartbeats 2000000 in
  with_unfolding_all decide

/-- C10 amended: when no documentValidation result is supplied and
extractedData is present without a (truthy) error field, analyzeClaim adds
the legacy penalties inside the text score: +30 when an extracted policy
number exists and is not strictly string-equal to the submitted one, and +20
when an extracted coverage amount is present (a truthy digit string, even
"0") and the claim amount exceeds 90% of its parseInt value.  These
penalties pass through at full weight only when no image analysis is
present either (the text-only fusion branch). -/
theorem analyzeClaim_legacy_fallback_C10 (c : ClaimData) (img : Option MultiImageResult)
    (t : ℤ) (ex : LegacyExtracted) (hdv : c.documentValidation = none)
    (hex : c.extractedData = some ex) (herr : jsTruthy ex.error = false) :
    (analyzeClaim c img t).breakdown.textAnalysisScore
      = min ((behavioralAnalysis c t).2
          + ((if jsTruthy ex.policyNumber ∧ ex.policyNumber.getD "" ≠ c.policyNumber
              then 30 else 0)
            + (match ex.coverageAmount with
               | some cov => if c.claimAmount > (cov : ℚ) * 0.9 then 20 else 0
               | none => 0))) 100
    ∧ (img = none →
        (analyzeClaim c img t).fraudScore
          = ((analyzeClaim c img t).breakdown.textAnalysisScore : ℤ)) := by
  obtain ⟨ca, inc, desc, pn, ct, dv, exd⟩ := c
  subst hdv
  subst hex
  constructor
  · have hleg : (documentSection
        ⟨ca, inc, desc, pn, ct, none, some ex⟩).2.1
        = (if jsTruthy ex.policyNumber ∧ ex.policyNumber.getD "" ≠ pn then 30 else 0)
          + (match ex.coverageAmount with
             | some cov => if ca > (cov : ℚ) * 0.9 then 20 else 0
             | none => 0) := by
      simp only [documentSection, herr, Bool.not_false, if_true]
      rcases hca : ex.coverageAmount with _ | cov
      · by_cases h1 : jsTruthy ex.policyNumber ∧ ex.policyNumber.getD "" ≠ pn <;> simp [h1]
      · by_cases h1 : jsTruthy ex.policyNumber ∧ ex.policyNumber.getD "" ≠ pn <;>
          by_cases h2 : ca > (cov : ℚ) * 0.9 <;> simp [h1, h2]
    have htext : (analyzeClaim ⟨ca, inc, desc, pn, ct, none, some ex⟩ img t).breakdown.textAnalysisScore
        = min ((behavioralAnalysis ⟨ca, inc, desc, pn, ct, none, some ex⟩ t).2
            + (documentSection ⟨ca, inc, desc, pn, ct, none, some ex⟩).2.1) 100 := rfl
    rw [htext, hleg]
  · rintro rfl
    have hle : ∀ n : ℕ, n ≤ 100 → max 0 (min 100 (n : ℤ)) = n := by intro n hn; omega
    exact hle _ (Nat.min_le_right _ _)

/-- C10 amended witness: the same legacy-fallback submission without images
passes the +30 penalty through at full weight. -/
theorem analyzeClaim_legacy_fallback_C10_witness :
    (analyzeClaim legacyProbeClaim none legacyProbeNow).fraudScore
      = ((analyzeClaim legacyProbeClaim none legacyProbeNow).breakdown.textAnalysisScore : ℤ)
    ∧ (analyzeClaim legacyProbeClaim none legacyProbeNow).breakdown.textAnalysisScore = 30 :=
  ⟨(analyzeClaim_legacy_fallback_C10 legacyProbeClaim none legacyProbeNow
      legacyMismatchExtracted rfl rfl rfl).2 rfl,
   by set_option maxHeartbeats 2000000 in with_unfolding_all decide⟩

/-! ## Bounds lemmas feeding the fusion claim -/

/-- runImages produces one result per image. -/
theorem runImages_length (imgs : List ImageInput) (cd : ClaimContext) (st : HashStore) :
    (runImages imgs cd st).1.length = imgs.length := by
  induction imgs generalizing st with
  | nil => rfl
  | cons i rest ih => simp [runImages, ih]

/-- The per-image score accumulator stays nonnegative. -/
theorem scoreSum_nonneg (l : List ImageAnalysisResult) (q : ℚ) (hq : 0 ≤ q) :
    0 ≤ l.foldl (fun sum r => sum + (r.fraudScore : ℚ)) q := by
  induction l generalizing q with
  | nil => simpa
  | cons r rest ih => exact ih _ (by positivity)

/-- The document-validation score is capped at 100 before it reaches fusion. -/
theorem validateDocumentData_fraudScore_le (ed : Option ExtractedData) (f : FormData)
    (now : ℤ) : (validateDocumentData ed f now).fraudScore ≤ 100 := by
  rcases ed with _ | e
  · show (failedCore none).fraudScore ≤ 100
    simp [failedCore, initialCore]
  · simp only [validateDocumentData]
    split
    · show (failedCore e.error).fraudScore ≤ 100
      simp [failedCore, initialCore]
    · exact Nat.min_le_right _ _

/-- On a non-empty image list the combined image score is a real number in
[0, 100]. -/
theorem analyzeMultipleImages_score_bounds (imgs : List ImageInput) (cd : ClaimContext)
    (st : HashStore) (h : imgs ≠ []) :
    ∃ q : ℚ, (analyzeMultipleImages imgs cd st).1.combinedFraudScore = JSNum.num q
      ∧ 0 ≤ q ∧ q ≤ 100 := by
  have hlen : (runImages imgs cd st).1.length ≠ 0 := by
    rw [runImages_length]
    exact fun hh => h (List.length_eq_zero.mp hh)
  have himgs : imgs.length ≠ 0 := fun hh => h (List.length_eq_zero.mp hh)
  have hbase : 0 ≤ ((round ((runImages imgs cd st).1.foldl
      (fun sum r => sum + (r.fraudScore : ℚ)) 0 / ((runImages imgs cd st).1.length : ℚ)) : ℤ) : ℚ) := by
    have htot : 0 ≤ (runImages imgs cd st).1.foldl (fun sum r => sum + (r.fraudScore : ℚ)) 0 :=
      scoreSum_nonneg _ _ le_rfl
    have hdiv : 0 ≤ (runImages imgs cd st).1.foldl (fun sum r => sum + (r.fraudScore : ℚ)) 0
        / ((runImages imgs cd st).1.length : ℚ) := by positivity
    have : (0 : ℤ) ≤ round ((runImages imgs cd st).1.foldl
        (fun sum r => sum + (r.fraudScore : ℚ)) 0 / ((runImages imgs cd st).1.length : ℚ)) := by
      rw [round_eq]
      exact Int.floor_nonneg.2 (by linarith)
    exact_mod_cast this
  simp only [analyzeMultipleImages]
  simp only [hlen, if_false, himgs, if_false, reduceIte]
  split
  · exact ⟨_, rfl, le_min (by linarith) (by norm_num), min_le_right _ _⟩
  · exact ⟨_, rfl, le_min (by linarith) (by norm_num), min_le_right _ _⟩

/-- The document-section score component is 0 whenever no documentValidation
result is attached. -/
theorem documentSection_score_none (c : ClaimData) (h : c.documentValidation = none) :
    (documentSection c).2.2 = 0 := by
  obtain ⟨ca, inc, desc, pn, ct, dv, exd⟩ := c
  subst h
  rcases exd with _ | exv
  · rfl
  · simp only [documentSection]
    split <;> rfl

/-- C1: analyzeClaim fuses the component scores by the presence-dependent
weight table: with text, document-validation and image signals present the
fused score is round(0.35 text + 0.35 docVal + 0.30 image); with text and
document validation only, round(0.5 text + 0.5 docVal); with text and image
only, round(0.6 text + 0.4 image); with text only it is the text score
unchanged.  Each component is clamped to [0, 100] before fusion (the text
score in analyzeClaim itself, the other two in their producing services);
the fused result is clamped to [0, 100] and is an integer by construction;
the three weight sets each sum to exactly 1. -/
theorem analyzeClaim_fusion_C1 :
    (∀ (ed : Option ExtractedData) (f : FormData) (now : ℤ),
      (validateDocumentData ed f now).fraudScore ≤ 100)
    ∧ (∀ (imgs : List ImageInput) (cd : ClaimContext) (st : HashStore), imgs ≠ [] →
      ∃ q : ℚ, (analyzeMultipleImages imgs cd st).1.combinedFraudScore = JSNum.num q
        ∧ 0 ≤ q ∧ q ≤ 100)
    ∧ (∀ (c : ClaimData) (img : Option MultiImageResult) (t : ℤ),
      (∀ dv, c.documentValidation = some dv → dv.fraudScore ≤ 100) →
      (∀ r, img = some r → 0 ≤ jsNumOrZero r.combinedFraudScore
          ∧ jsNumOrZero r.combinedFraudScore ≤ 100) →
      (analyzeClaim c img t).breakdown.textAnalysisScore ≤ 100
      ∧ (analyzeClaim c img t).breakdown.documentValidationScore ≤ 100
      ∧ (0 ≤ (analyzeClaim c img t).breakdown.imageAnalysisScore
          ∧ (analyzeClaim c img t).breakdown.imageAnalysisScore ≤ 100)
      ∧ (analyzeClaim c img t).fraudScore
          = max 0 (min 100
              (match img, c.documentValidation with
               | some _, some _ =>
                   round (((analyzeClaim c img t).breakdown.textAnalysisScore : ℚ) * 0.35
                     + ((analyzeClaim c img t).breakdown.documentValidationScore : ℚ) * 0.35
                     + (analyzeClaim c img t).breakdown.imageAnalysisScore * 0.30)
               | none, some _ =>
                   round (((analyzeClaim c img t).breakdown.textAnalysisScore : ℚ) * 0.5
                     + ((analyzeClaim c img t).breakdown.documentValidationScore : ℚ) * 0.5)
               | some _, none =>
                   round (((analyzeClaim c img t).breakdown.textAnalysisScore : ℚ) * 0.6
                     + (analyzeClaim c img t).breakdown.imageAnalysisScore * 0.4)
               | none, none =>
                   ((analyzeClaim c img t).breakdown.textAnalysisScore : ℤ)))
      ∧ (0 ≤ (analyzeClaim c img t).fraudScore ∧ (analyzeClaim c img t).fraudScore ≤ 100)
      ∧ (img = none → c.documentValidation = none →
          (analyzeClaim c img t).fraudScore
            = ((analyzeClaim c img t).breakdown.textAnalysisScore : ℤ)))
    ∧ ((0.35 : ℚ) + 0.35 + 0.30 = 1 ∧ (0.5 : ℚ) + 0.5 = 1 ∧ (0.6 : ℚ) + 0.4 = 1) := by
  refine ⟨validateDocumentData_fraudScore_le, analyzeMultipleImages_score_bounds, ?_, by norm_num⟩
  intro c img t hdv himg
  have htextle : (analyzeClaim c img t).breakdown.textAnalysisScore ≤ 100 :=
    Nat.min_le_right _ _
  have hdocle : (analyzeClaim c img t).breakdown.documentValidationScore ≤ 100 := by
    rcases hdvv : c.documentValidation with _ | dv
    · have : (analyzeClaim c img t).breakdown.documentValidationScore
          = (documentSection c).2.2 := rfl
      rw [this, documentSection_score_none c hdvv]
      norm_num
    · have : (analyzeClaim c img t).breakdown.documentValidationScore
          = (documentSection c).2.2 := rfl
      rw [this]
      obtain ⟨ca, inc, desc, pn, ct, dvf, exd⟩ := c
      simp only at hdvv
      subst hdvv
      exact hdv dv rfl
  have himgbounds : 0 ≤ (analyzeClaim c img t).breakdown.imageAnalysisScore
      ∧ (analyzeClaim c img t).breakdown.imageAnalysisScore ≤ 100 := by
    rcases img with _ | ir
    · have hz : (analyzeClaim c none t).breakdown.imageAnalysisScore = 0 := rfl
      rw [hz]
      norm_num
    · exact himg ir rfl
  obtain ⟨ca, inc, desc, pn, ct, dv, exd⟩ := c
  rcases img with _ | ir <;> rcases dv with _ | dvv
  · refine ⟨htextle, hdocle, himgbounds, rfl, ?_, ?_⟩
    · have heq : (analyzeClaim ⟨ca, inc, desc, pn, ct, none, exd⟩ none t).fraudScore
          = max 0 (min 100 ((analyzeClaim ⟨ca, inc, desc, pn, ct, none, exd⟩
              none t).breakdown.textAnalysisScore : ℤ)) := rfl
      rw [heq]
      omega
    · intro _ _
      have hle : ∀ n : ℕ, n ≤ 100 → max 0 (min 100 (n : ℤ)) = n := by intro n hn; omega
      exact hle _ (Nat.min_le_right _ _)
  · refine ⟨htextle, hdocle, himgbounds, rfl, ?_, ?_⟩
    · have heq : (analyzeClaim ⟨ca, inc, desc, pn, ct, some dvv, exd⟩ none t).fraudScore
          = max 0 (min 100 (round
              (((analyzeClaim ⟨ca, inc, desc, pn, ct, some dvv, exd⟩
                  none t).breakdown.textAnalysisScore : ℚ) * 0.5
                + ((analyzeClaim ⟨ca, inc, desc, pn, ct, some dvv, exd⟩
                  none t).breakdown.documentValidationScore : ℚ) * 0.5))) := rfl
      rw [heq]
      omega
    · intro _ hcon
      exact absurd hcon (by simp)
  · refine ⟨htextle, hdocle, himgbounds, rfl, ?_, ?_⟩
    · have heq : (analyzeClaim ⟨ca, inc, desc, pn, ct, none, exd⟩ (some ir) t).fraudScore
          = max 0 (min 100 (round
              (((analyzeClaim ⟨ca, inc, desc, pn, ct, none, exd⟩
                  (some ir) t).breakdown.textAnalysisScore : ℚ) * 0.6
                + (analyzeClaim ⟨ca, inc, desc, pn, ct, none, exd⟩
                  (some ir) t).breakdown.imageAnalysisScore * 0.4))) := rfl
      rw [heq]
      omega
    · intro hcon _
      exact absurd hcon (by simp)
  · refine ⟨htextle, hdocle, himgbounds, rfl, ?_, ?_⟩
    · have heq : (analyzeClaim ⟨ca, inc, desc, pn, ct, some dvv, exd⟩ (some ir) t).fraudScore
          = max 0 (min 100 (round
              (((analyzeClaim ⟨ca, inc, desc, pn, ct, some dvv, exd⟩
                  (some ir) t).breakdown.textAnalysisScore : ℚ) * 0.35
                + ((analyzeClaim ⟨ca, inc, desc, pn, ct, some dvv, exd⟩
                  (some ir) t).breakdown.documentValidationScore : ℚ) * 0.35
                + (analyzeClaim ⟨ca, inc, desc, pn, ct, some dvv, exd⟩
                  (some ir) t).breakdown.imageAnalysisScore * 0.30))) := rfl
      rw [heq]
      omega
    · intro hcon _
      exact absurd hcon (by simp)

/-- C1 witness: a submission with neither optional signal takes the
text-only branch unchanged (score 0), and a concrete one-image aggregate has
a real in-range combined score. -/
theorem analyzeClaim_fusion_C1_witness :
    ((analyzeClaim bareClaim none 0).fraudScore
      = ((analyzeClaim bareClaim none 0).breakdown.textAnalysisScore : ℤ)
    ∧ (analyzeClaim bareClaim none 0).fraudScore = 0)
    ∧ ∃ q : ℚ, (analyzeMultipleImages [corruptImage] emptyContext
        []).1.combinedFraudScore = JSNum.num q ∧ 0 ≤ q ∧ q ≤ 100 :=
  ⟨⟨(analyzeClaim_fusion_C1.2.2.1 bareClaim none 0 (fun dv h => by cases h)
      (fun r h => by cases h)).2.2.2.2.2 rfl rfl,
    by with_unfolding_all decide⟩,
   analyzeClaim_fusion_C1.2.1 [corruptImage] emptyContext [] (by decide)⟩

/-- C8 witness: the authenticity aggregation at a concrete pair of failed
heuristics (format and scan quality, confidence 75, authentic verdict). -/
theorem checkAuthenticity_C8_witness :
    (checkAuthenticity probeAuthChecks).confidence
      = max 0 (100 - specAuthPenaltyTotal probeAuthChecks)
    ∧ ((checkAuthenticity probeAuthChecks).isAuthentic = true
        ↔ (checkAuthenticity probeAuthChecks).confidence > 50)
    ∧ 0 ≤ (checkAuthenticity probeAuthChecks).confidence :=
  checkAuthenticity_C8 probeAuthChecks

end FraudLens
